import Mathlib

/-! Verification of the sequential tool-orchestration engine
(`backend/ai_generator.py`) and of the vector retrieval layer of the
course-materials RAG chatbot.  The Python code is shallowly embedded:
the LLM client is an oracle `Client : Nat → LLMResponse` giving the
response to the n-th API call, the tool manager is a function that may
raise (`Except`), and every API call and every tool execution is
recorded in an explicit `Trace`.
-/

namespace Rag

/-- A content block of an LLM response: either a text block or a
tool-use request (id, tool name, keyword arguments). -/
inductive ContentBlock where
  | text (t : String)
  | tool_use (id : String) (name : String) (input : List (String × String))
deriving Repr, DecidableEq

/-- The `.type` attribute of a content block. -/
def ContentBlock.type : ContentBlock → String
  | .text _ => "text"
  | .tool_use _ _ _ => "tool_use"

/-- The `.text` attribute of a content block; `none` models the
`AttributeError` raised when the block is not a text block. -/
def ContentBlock.textAttr : ContentBlock → Option String
  | .text t => some t
  | .tool_use _ _ _ => none

/-- One `tool_result` entry of the user turn sent back to the LLM. -/
structure ToolResult where
  tool_use_id : String
  content : String
deriving Repr, DecidableEq

/-- The content of a conversation message: a plain string (the user
query), the assistant's content blocks, or a list of tool results. -/
inductive MessageContent where
  | str (s : String)
  | blocks (bs : List ContentBlock)
  | results (rs : List ToolResult)
deriving Repr, DecidableEq

/-- A conversation message. -/
structure Message where
  role : String
  content : MessageContent
deriving Repr, DecidableEq

/-- Tool definitions are treated opaquely by the engine; we model one
definition by its name. -/
def ToolDef := String
deriving instance Repr, DecidableEq for ToolDef

/-- The keyword-argument dictionary handed to `client.messages.create`.
`tools = none` models the absence of the `tools` key. -/
structure ApiParams where
  model : String
  temperature : Nat
  max_tokens : Nat
  messages : List Message
  system : String
  tools : Option (List ToolDef)
  tool_choice : Option String
deriving Repr, DecidableEq

/-- An LLM response: stop reason plus content blocks. -/
structure LLMResponse where
  stop_reason : String
  content : List ContentBlock
deriving Repr, DecidableEq

/-- The LLM oracle: the response returned by the n-th API call. -/
abbrev Client := Nat → LLMResponse

/-- The tool manager's `execute_tool`, which may raise an exception
(modelled by `Except.error` carrying the exception message). -/
abbrev ToolManager := String → List (String × String) → Except String String

/-- Instrumentation: the parameters of every LLM call made so far, in
order, and every tool execution dispatched to the tool manager. -/
structure Trace where
  llmCalls : List ApiParams
  toolExecs : List (String × List (String × String))
deriving Repr, DecidableEq

/-- Models `self.client.messages.create(**p)`: records the call and returns
the oracle's response for the current call index. -/
def llmCall (llm : Client) (p : ApiParams) (tr : Trace) : LLMResponse × Trace :=
  (llm tr.llmCalls.length, { tr with llmCalls := tr.llmCalls ++ [p] })

/-- The constructor state of `AIGenerator` (`api_key`, `model`,
`max_tool_rounds`). -/
structure AIGenerator where
  api_key : String
  model : String
  max_tool_rounds : Nat

/-- The static `AIGenerator.SYSTEM_PROMPT`. -/
def SYSTEM_PROMPT : String := " You are an AI assistant specialized in course materials and educational content with access to a comprehensive search tool for course information.

Search Tool Usage:
- Use the search tool **only** for questions about specific course content or detailed educational materials
- **You can make up to 2 sequential tool calls** to gather comprehensive information
- Use multiple searches when:
  - Comparing content across different courses or lessons
  - Multi-part questions requiring different search contexts
  - Following up on initial search results (e.g., search lesson outline, then search specific lesson)
- Synthesize search results into accurate, fact-based responses
- If search yields no results, state this clearly without offering alternatives

Sequential Search Examples:
- \"Compare lesson 3 in Course A vs Course B\" → Search Course A lesson 3, then Search Course B lesson 3
- \"What topic is covered in lesson 4 of MCP and find other courses about that topic\" → Search MCP lesson 4 to get topic, then search for that topic across courses
- \"Get the outline of Course X then tell me about lesson 2\" → Search Course X (general), then Search Course X lesson 2 (specific)

Response Protocol:
- **General knowledge questions**: Answer using existing knowledge without searching
- **Course-specific questions**: Search first, then answer
- **No meta-commentary**:
 - Provide direct answers only — no reasoning process, search explanations, or question-type analysis
 - Do not mention \"based on the search results\"


All responses must be:
1. **Brief, Concise and focused** - Get to the point quickly
2. **Educational** - Maintain instructional value
3. **Clear** - Use accessible language
4. **Example-supported** - Include relevant examples when they aid understanding
Provide only the direct answer to what was asked.
"

/-- Models `response.content[0].text`: the value returned at every exit point
of the engine.  `none` models the `IndexError`/`AttributeError` raised
when the first block is missing or is not a text block. -/
def firstText (r : LLMResponse) : Option String :=
  r.content.head?.bind ContentBlock.textAttr

/-- Builds the keyword arguments of one `messages.create` call:
the pre-built base parameters (model, temperature 0, max_tokens 800)
plus messages, system, and — when tool definitions are passed — the
`tools` key together with the `auto` `tool_choice`. -/
def mkParams (g : AIGenerator) (msgs : List Message) (sys : String)
    (tools : Option (List ToolDef)) : ApiParams :=
  { model := g.model, temperature := 0, max_tokens := 800,
    messages := msgs, system := sys, tools := tools,
    tool_choice := if tools.isSome then some "auto" else none }

/-- The `for content_block in current_response.content` loop of
`_handle_tool_execution`: executes every tool-use block through the
tool manager, wrapping each execution in the `try/except` that
substitutes `"Tool execution error: <message>"` for a raised
exception, and collects the `tool_result` entries in order. -/
def execToolBlocks (tm : ToolManager) :
    List ContentBlock → Trace → List ToolResult × Trace
  | [], tr => ([], tr)
  | ContentBlock.text _ :: bs, tr => execToolBlocks tm bs tr
  | ContentBlock.tool_use i n inp :: bs, tr =>
    let tr1 : Trace := { tr with toolExecs := tr.toolExecs ++ [(n, inp)] }
    let result :=
      match tm n inp with
      | .ok r => r
      | .error e => "Tool execution error: " ++ e
    let rest := execToolBlocks tm bs tr1
    (⟨i, result⟩ :: rest.1, rest.2)

/-- The `while current_round <= self.max_tool_rounds` loop of
`_handle_tool_execution`.  `fuel` is the number of remaining rounds
(`max_tool_rounds - current_round + 1`); the `0 < fuel` test mirrors
`current_round < self.max_tool_rounds`.  Returns `Sum.inl` for the
early `return current_response.content[0].text`, and `Sum.inr` with
the current response and accumulated messages when the round budget is
exhausted. -/
def toolLoop (g : AIGenerator) (llm : Client) (tm : ToolManager) (base : ApiParams) :
    Nat → LLMResponse → List Message → Trace →
    (Option String ⊕ (LLMResponse × List Message)) × Trace
  | 0, cur, msgs, tr => (Sum.inr (cur, msgs), tr)
  | fuel + 1, cur, msgs, tr =>
    if cur.stop_reason ≠ "tool_use" then
      (Sum.inl (firstText cur), tr)
    else
      let msgs1 := msgs ++ [⟨"assistant", MessageContent.blocks cur.content⟩]
      let er := execToolBlocks tm cur.content tr
      let msgs2 :=
        if er.1.isEmpty then msgs1
        else msgs1 ++ [⟨"user", MessageContent.results er.1⟩]
      let next_params := mkParams g msgs2 base.system
        (if 0 < fuel ∧ base.tools.isSome then base.tools else none)
      let cr := llmCall llm next_params er.2
      toolLoop g llm tm base fuel cr.1 msgs2 cr.2

/-- The fixed notice substituted for each pending tool call when the
round budget is exhausted. -/
def maxRoundsNotice : String :=
  "Maximum tool call rounds reached. Please provide your final answer based on previous results."

/-- The `tool_results` built by the exhaustion fallback: one entry per
tool-use block, each carrying the fixed maximum-rounds notice. -/
def noticeResults : List ContentBlock → List ToolResult
  | [] => []
  | ContentBlock.text _ :: bs => noticeResults bs
  | ContentBlock.tool_use i _ _ :: bs => ⟨i, maxRoundsNotice⟩ :: noticeResults bs

/-- The code after the round loop of `_handle_tool_execution`: if the
last response still signals tool use, append the trailing tool-use
message and the notice results, make one final call without tools, and
return that response's text; otherwise return the current response's
text. -/
def exhaustFallback (g : AIGenerator) (llm : Client) (base : ApiParams)
    (cur : LLMResponse) (msgs : List Message) (tr : Trace) :
    Option String × Trace :=
  if cur.stop_reason = "tool_use" then
    let msgs1 := msgs ++ [⟨"assistant", MessageContent.blocks cur.content⟩]
    let tool_results := noticeResults cur.content
    let msgs2 :=
      if tool_results.isEmpty then msgs1
      else msgs1 ++ [⟨"user", MessageContent.results tool_results⟩]
    let final_params := mkParams g msgs2 base.system none
    let cr := llmCall llm final_params tr
    (firstText cr.1, cr.2)
  else
    (firstText cur, tr)

/-- Models `AIGenerator._handle_tool_execution`: copies the base message list
(value copy — the store-passing variant below makes the aliasing
explicit), runs the round loop, then the exhaustion fallback. -/
def handle_tool_execution (g : AIGenerator) (llm : Client)
    (initial : LLMResponse) (base : ApiParams) (tm : ToolManager)
    (tr : Trace) : Option String × Trace :=
  match toolLoop g llm tm base g.max_tool_rounds initial base.messages tr with
  | (Sum.inl ans, tr1) => (ans, tr1)
  | (Sum.inr (cur, msgs), tr1) => exhaustFallback g llm base cur msgs tr1

/-- The system-content construction of `generate_response`: the fixed
system prompt, followed — when the optional history string is truthy —
by a separator and the history. -/
def buildSystemContent (conversation_history : Option String) : String :=
  match conversation_history with
  | some h =>
    if h = "" then SYSTEM_PROMPT
    else SYSTEM_PROMPT ++ "\n\nPrevious conversation:\n" ++ h
  | none => SYSTEM_PROMPT

/-- Python truthiness of the optional tool list: the `tools` key is
added to the parameters only when the list is present and non-empty. -/
def normTools : Option (List ToolDef) → Option (List ToolDef)
  | some ts => if ts.isEmpty then none else some ts
  | none => none

/-- Models `AIGenerator.generate_response`: build the system content and the
initial parameters, make the first LLM call, and either enter the tool
loop (stop reason `tool_use` and a truthy tool manager) or return the
first content block's text. -/
def generate_response (g : AIGenerator) (llm : Client) (query : String)
    (conversation_history : Option String) (tools : Option (List ToolDef))
    (tool_manager : Option ToolManager) : Option String × Trace :=
  let system_content := buildSystemContent conversation_history
  let api_params := mkParams g [⟨"user", MessageContent.str query⟩]
    system_content (normTools tools)
  let rt := llmCall llm api_params ⟨[], []⟩
  match tool_manager with
  | some tm =>
    if rt.1.stop_reason = "tool_use" then
      handle_tool_execution g llm rt.1 api_params tm rt.2
    else (firstText rt.1, rt.2)
  | none => (firstText rt.1, rt.2)

/-- The number of tool-use blocks in a content list (`content_block.type
== "tool_use"`). -/
def countToolUse (bs : List ContentBlock) : Nat :=
  (bs.filter fun b => b.type == "tool_use").length

/-! Helper definitions used in the statements -/

/-- The tool result that one content block contributes: `none` for a
text block; for a tool-use block, the manager's answer, or the error
string substituted by the failure boundary. -/
def expectedToolResult (tm : ToolManager) : ContentBlock → Option ToolResult
  | ContentBlock.text _ => none
  | ContentBlock.tool_use i n inp =>
    some ⟨i, match tm n inp with
             | .ok r => r
             | .error e => "Tool execution error: " ++ e⟩

/-- The trace entry that one content block contributes: every tool-use
block is dispatched to the manager, raising or not. -/
def execEntry : ContentBlock → Option (String × List (String × String))
  | ContentBlock.text _ => none
  | ContentBlock.tool_use _ n inp => some (n, inp)

/-- The message list after one tool round: the assistant's tool-use
turn, then — when there was at least one tool result — the user turn
with the results. -/
def roundMsgs (tm : ToolManager) (cur : LLMResponse) (msgs : List Message) : List Message :=
  let msgs1 := msgs ++ [⟨"assistant", MessageContent.blocks cur.content⟩]
  let rs := cur.content.filterMap (expectedToolResult tm)
  if rs.isEmpty then msgs1 else msgs1 ++ [⟨"user", MessageContent.results rs⟩]

/-- The parameters of the LLM call that ends one tool round. -/
def roundParams (g : AIGenerator) (tm : ToolManager) (base : ApiParams)
    (fuel : Nat) (cur : LLMResponse) (msgs : List Message) : ApiParams :=
  mkParams g (roundMsgs tm cur msgs) base.system
    (if 0 < fuel ∧ base.tools.isSome then base.tools else none)

/-- The message list built by the exhaustion fallback: the trailing
assistant tool-use turn, then — when there was at least one pending
tool call — the user turn carrying the notice results. -/
def fbMsgs (cur : LLMResponse) (msgs : List Message) : List Message :=
  let msgs1 := msgs ++ [⟨"assistant", MessageContent.blocks cur.content⟩]
  let rs := noticeResults cur.content
  if rs.isEmpty then msgs1 else msgs1 ++ [⟨"user", MessageContent.results rs⟩]

/-- The parameters of the initial LLM call of `generate_response`. -/
def initialParams (g : AIGenerator) (q : String) (ch : Option String)
    (tools : Option (List ToolDef)) : ApiParams :=
  mkParams g [⟨"user", MessageContent.str q⟩] (buildSystemContent ch) (normTools tools)

/-! Store-passing variant (Python list aliasing made explicit)

Python lists are mutable references.  To state the frame property of
`_handle_tool_execution` — it appends only to a `.copy()` of
`base_params["messages"]` — we re-run the same code over an explicit
store of message lists: `copyRef` models `.copy()` (a fresh cell),
`appendRef` models `list.append` (in-place update of one cell). -/

/-- A heap of Python list objects holding messages. -/
abbrev MsgStore := List (List Message)

/-- Dereference a list object. -/
def readRef (σ : MsgStore) (r : Nat) : List Message := (σ[r]?).getD []

/-- Models `list.copy()`: allocate a fresh cell with the same contents. -/
def copyRef (σ : MsgStore) (r : Nat) : MsgStore × Nat :=
  (σ ++ [readRef σ r], σ.length)

/-- Models `list.append(m)`: in-place update of the cell `r`. -/
def appendRef (σ : MsgStore) (r : Nat) (m : Message) : MsgStore :=
  σ.set r (readRef σ r ++ [m])

/-- The round loop of `_handle_tool_execution`, store-passing: all
`messages.append` calls mutate the cell `msgsRef`. -/
def toolLoopSt (g : AIGenerator) (llm : Client) (tm : ToolManager)
    (base : ApiParams) (msgsRef : Nat) :
    Nat → LLMResponse → MsgStore → Trace →
    (Option String ⊕ LLMResponse) × MsgStore × Trace
  | 0, cur, σ, tr => (Sum.inr cur, σ, tr)
  | fuel + 1, cur, σ, tr =>
    if cur.stop_reason ≠ "tool_use" then
      (Sum.inl (firstText cur), σ, tr)
    else
      let σ1 := appendRef σ msgsRef ⟨"assistant", MessageContent.blocks cur.content⟩
      let er := execToolBlocks tm cur.content tr
      let σ2 :=
        if er.1.isEmpty then σ1
        else appendRef σ1 msgsRef ⟨"user", MessageContent.results er.1⟩
      let next_params := mkParams g (readRef σ2 msgsRef) base.system
        (if 0 < fuel ∧ base.tools.isSome then base.tools else none)
      let cr := llmCall llm next_params er.2
      toolLoopSt g llm tm base msgsRef fuel cr.1 σ2 cr.2

/-- The exhaustion fallback, store-passing. -/
def exhaustFallbackSt (g : AIGenerator) (llm : Client) (base : ApiParams)
    (msgsRef : Nat) (cur : LLMResponse) (σ : MsgStore) (tr : Trace) :
    Option String × MsgStore × Trace :=
  if cur.stop_reason = "tool_use" then
    let σ1 := appendRef σ msgsRef ⟨"assistant", MessageContent.blocks cur.content⟩
    let tool_results := noticeResults cur.content
    let σ2 :=
      if tool_results.isEmpty then σ1
      else appendRef σ1 msgsRef ⟨"user", MessageContent.results tool_results⟩
    let final_params := mkParams g (readRef σ2 msgsRef) base.system none
    let cr := llmCall llm final_params tr
    (firstText cr.1, σ2, cr.2)
  else
    (firstText cur, σ, tr)

/-- Models `AIGenerator._handle_tool_execution`, store-passing:
`messages = base_params["messages"].copy()` allocates a fresh cell;
all later appends go to that cell. -/
def handle_tool_execution_st (g : AIGenerator) (llm : Client)
    (initial : LLMResponse) (base : ApiParams) (baseRef : Nat)
    (tm : ToolManager) (σ : MsgStore) (tr : Trace) :
    Option String × MsgStore × Trace :=
  let c := copyRef σ baseRef
  match toolLoopSt g llm tm base c.2 g.max_tool_rounds initial c.1 tr with
  | (Sum.inl ans, σ1, tr1) => (ans, σ1, tr1)
  | (Sum.inr cur, σ1, tr1) => exhaustFallbackSt g llm base c.2 cur σ1 tr1

/-- Models `AIGenerator.generate_response`, store-passing: the single initial
user message is the list object `base_params["messages"]`, allocated
here as cell `0`; the result also returns the final store and that
cell's reference. -/
def generate_response_st (g : AIGenerator) (llm : Client) (query : String)
    (conversation_history : Option String) (tools : Option (List ToolDef))
    (tool_manager : Option ToolManager) :
    Option String × MsgStore × Nat × Trace :=
  let system_content := buildSystemContent conversation_history
  let σ0 : MsgStore := [[⟨"user", MessageContent.str query⟩]]
  let baseRef : Nat := 0
  let api_params := mkParams g (readRef σ0 baseRef) system_content (normTools tools)
  let rt := llmCall llm api_params ⟨[], []⟩
  match tool_manager with
  | some tm =>
    if rt.1.stop_reason = "tool_use" then
      let h := handle_tool_execution_st g llm rt.1 api_params baseRef tm σ0 rt.2
      (h.1, h.2.1, baseRef, h.2.2)
    else (firstText rt.1, σ0, baseRef, rt.2)
  | none => (firstText rt.1, σ0, baseRef, rt.2)

/-! Vector retrieval layer

Modelled from the spec: `vector_store.py` is not among the source
files (only its tests under `backend/tests/` are), so `SearchResults`,
the filter construction, the course-name resolution interface and
`VectorStore.search` are modelled from spec sections 3, 4.1 and 4.2
and checked for shape against `tests/test_vector_store.py`. -/

/-- Modelled from the spec: a structured filter handed to the content
query — an equality predicate on the course title, an equality
predicate on the lesson number, or the logical AND of the two. -/
inductive ChromaWhere where
  | eqCourseTitle (t : String)
  | eqLessonNumber (n : Int)
  | andFilter (a b : ChromaWhere)
deriving Repr, DecidableEq

/-- Modelled from the spec: the filter-construction rule of spec
section 4.1 — no filters gives an unrestricted query; course only gives
the course-title equality; lesson only gives the lesson-number
equality; both give the logical AND of the two. -/
def buildWhere : Option String → Option Int → Option ChromaWhere
  | none, none => none
  | some t, none => some (ChromaWhere.eqCourseTitle t)
  | none, some n => some (ChromaWhere.eqLessonNumber n)
  | some t, some n =>
    some (ChromaWhere.andFilter (ChromaWhere.eqCourseTitle t) (ChromaWhere.eqLessonNumber n))

/-- Modelled from the spec: per-document metadata of a search hit. -/
structure ChunkMeta where
  course_title : String
  lesson_number : Option Int
  chunk_index : Nat
deriving Repr, DecidableEq

/-- Modelled from the spec: a `SearchResults` value — parallel
documents, metadata and distances plus an optional error string
(distances are kept abstract as integers; no claim inspects them). -/
structure SearchResults where
  documents : List String
  metadata : List ChunkMeta
  distances : List Int
  error : Option String
deriving Repr, DecidableEq

/-- Modelled from the spec: `SearchResults.empty(msg)` is an error-carrying result with all three
sequences empty. -/
def SearchResults.empty (msg : String) : SearchResults := ⟨[], [], [], some msg⟩

/-- Modelled from the spec: `SearchResults.is_empty()` is true iff `documents` is empty. -/
def SearchResults.is_empty (r : SearchResults) : Bool := r.documents.isEmpty

/-- The course-name resolver as an environment: the canonical title for
a fuzzy name, or `none` when resolution fails. -/
abbrev Resolver := String → Option String

/-- The underlying content-collection similarity query as an
environment: documents, metadata and distances, or a raised exception. -/
abbrev ContentQuery :=
  String → Option ChromaWhere → Except String (List String × List ChunkMeta × List Int)

/-- A single-quote character, used in the error messages. -/
def sq : String := "\x27"

/-- Modelled from the spec: issue the similarity query and capture any
exception as `SearchResults.empty("Search error: <message>")`; also
returns the issued (query text, filter) pair for instrumentation. -/
def runContentQuery (cq : ContentQuery) (text : String) (w : Option ChromaWhere) :
    SearchResults × List (String × Option ChromaWhere) :=
  match cq text w with
  | .ok (docs, metas, dists) => (⟨docs, metas, dists, none⟩, [(text, w)])
  | .error m => (SearchResults.empty ("Search error: " ++ m), [(text, w)])

/-- Modelled from the spec: `VectorStore.search` (spec section 4.1) —
resolve the course name first when given; on resolution failure return
`SearchResults.empty("No course found matching '<course_name>'")`
without issuing any query; otherwise build the filter and run the
query.  The second component lists the content queries issued. -/
def search (resolve : Resolver) (cq : ContentQuery) (query : String)
    (course_name : Option String) (lesson_number : Option Int) :
    SearchResults × List (String × Option ChromaWhere) :=
  match course_name with
  | some cn =>
    match resolve cn with
    | none => (SearchResults.empty ("No course found matching " ++ sq ++ cn ++ sq), [])
    | some title => runContentQuery cq query (buildWhere (some title) lesson_number)
  | none => runContentQuery cq query (buildWhere none lesson_number)

/-! Concrete test fixtures (used by witnesses and counterexamples) -/

/-- An `AIGenerator` with the default `max_tool_rounds = 2`. -/
def wGen : AIGenerator := ⟨"test-key", "claude-sonnet-4-20250514", 2⟩

/-- A tool manager that always succeeds. -/
def wTM : ToolManager := fun _ _ => Except.ok "Search result"

/-- A tool manager that always raises. -/
def errTM : ToolManager := fun _ _ => Except.error "ChromaDB connection failed"

/-- An LLM whose every response signals tool use with exactly one
tool-use block. -/
def wLLM : Client := fun _ =>
  ⟨"tool_use", [ContentBlock.tool_use "tool_123" "search_course_content" [("query", "test")]]⟩

/-- An LLM whose every response signals tool use with two tool-use
blocks. -/
def twoLLM : Client := fun _ =>
  ⟨"tool_use", [ContentBlock.tool_use "a" "search_course_content" [],
                ContentBlock.tool_use "b" "search_course_content" []]⟩

/-- An LLM that signals tool use on the initial call only, then
answers directly. -/
def eLLM : Client := fun n =>
  if n = 0 then ⟨"tool_use", [ContentBlock.tool_use "tool_1" "search_course_content" [("query", "MCP")]]⟩
  else ⟨"end_turn", [ContentBlock.text "MCP stands for Model Context Protocol."]⟩

/-- An LLM that always answers directly. -/
def dLLM : Client := fun _ => ⟨"end_turn", [ContentBlock.text "ok"]⟩

/-- A resolver knowing one course. -/
def wResolver : Resolver := fun n =>
  if n = "MCP" then some "Introduction to MCP" else none

/-- A content query that always succeeds with two hits. -/
def okQuery : ContentQuery := fun _ _ =>
  Except.ok (["doc1", "doc2"],
    [⟨"Introduction to MCP", some 1, 0⟩, ⟨"Introduction to MCP", some 1, 1⟩],
    [0, 1])

/-- A content query that always raises. -/
def errQuery : ContentQuery := fun _ _ => Except.error "ChromaDB connection failed"

/-! Theorems -/

set_option maxRecDepth 4000

/-! Characterisation of one round's tool execution -/

theorem execToolBlocks_spec (tm : ToolManager) (bs : List ContentBlock) (tr : Trace) :
    execToolBlocks tm bs tr =
      (bs.filterMap (expectedToolResult tm),
       { tr with toolExecs := tr.toolExecs ++ bs.filterMap execEntry }) := by
  induction bs generalizing tr with
  | nil => simp [execToolBlocks]
  | cons b bs ih => cases b <;> simp [execToolBlocks, expectedToolResult, execEntry, ih]

theorem length_filterMap_expected (tm : ToolManager) (bs : List ContentBlock) :
    (bs.filterMap (expectedToolResult tm)).length = countToolUse bs := by
  induction bs with
  | nil => simp [countToolUse]
  | cons b bs ih =>
    cases b <;> simp [countToolUse, expectedToolResult, ContentBlock.type, List.filter] at ih ⊢ <;> omega

theorem length_filterMap_execEntry (bs : List ContentBlock) :
    (bs.filterMap execEntry).length = countToolUse bs := by
  induction bs with
  | nil => simp [countToolUse]
  | cons b bs ih =>
    cases b <;> simp [countToolUse, execEntry, ContentBlock.type, List.filter] at ih ⊢ <;> omega

/-! One unfolding step of the round loop -/

theorem toolLoop_succ_stop (g : AIGenerator) (llm : Client) (tm : ToolManager)
    (base : ApiParams) (fuel : Nat) (cur : LLMResponse) (msgs : List Message)
    (tr : Trace) (h : cur.stop_reason ≠ "tool_use") :
    toolLoop g llm tm base (fuel + 1) cur msgs tr = (Sum.inl (firstText cur), tr) := by
  simp [toolLoop, h]

theorem toolLoop_succ_tool (g : AIGenerator) (llm : Client) (tm : ToolManager)
    (base : ApiParams) (fuel : Nat) (cur : LLMResponse) (msgs : List Message)
    (tr : Trace) (h : cur.stop_reason = "tool_use") :
    toolLoop g llm tm base (fuel + 1) cur msgs tr =
      toolLoop g llm tm base fuel (llm tr.llmCalls.length)
        (roundMsgs tm cur msgs)
        ⟨tr.llmCalls ++ [roundParams g tm base fuel cur msgs],
         tr.toolExecs ++ cur.content.filterMap execEntry⟩ := by
  simp [toolLoop, h, execToolBlocks_spec, llmCall, roundMsgs, roundParams]

/-! Shape and bounds of the round loop's trace -/

theorem toolLoop_trace_shape (g : AIGenerator) (llm : Client) (tm : ToolManager)
    (base : ApiParams) :
    ∀ (fuel : Nat) (cur : LLMResponse) (msgs : List Message) (tr : Trace),
      ∃ l e, (toolLoop g llm tm base fuel cur msgs tr).2 =
        ⟨tr.llmCalls ++ l, tr.toolExecs ++ e⟩ ∧ l.length ≤ fuel := by
  intro fuel
  induction fuel with
  | zero => intro cur msgs tr; exact ⟨[], [], by simp [toolLoop], by simp⟩
  | succ fuel ih =>
    intro cur msgs tr
    by_cases h : cur.stop_reason = "tool_use"
    · rw [toolLoop_succ_tool g llm tm base fuel cur msgs tr h]
      obtain ⟨l, e, hshape, hlen⟩ := ih (llm tr.llmCalls.length) (roundMsgs tm cur msgs)
        ⟨tr.llmCalls ++ [roundParams g tm base fuel cur msgs],
         tr.toolExecs ++ cur.content.filterMap execEntry⟩
      refine ⟨roundParams g tm base fuel cur msgs :: l,
        cur.content.filterMap execEntry ++ e, ?_, ?_⟩
      · rw [hshape]; simp
      · simp; omega
    · rw [toolLoop_succ_stop g llm tm base fuel cur msgs tr h]
      exact ⟨[], [], by simp, by simp⟩

theorem toolLoop_llm_mono (g : AIGenerator) (llm : Client) (tm : ToolManager)
    (base : ApiParams) (fuel : Nat) (cur : LLMResponse) (msgs : List Message)
    (tr : Trace) :
    tr.llmCalls.length ≤ (toolLoop g llm tm base fuel cur msgs tr).2.llmCalls.length := by
  obtain ⟨l, e, hshape, -⟩ := toolLoop_trace_shape g llm tm base fuel cur msgs tr
  rw [hshape]; simp

theorem toolLoop_execs_le (g : AIGenerator) (llm : Client) (tm : ToolManager)
    (base : ApiParams) (h : ∀ n, countToolUse (llm n).content ≤ 1) :
    ∀ (fuel : Nat) (cur : LLMResponse) (msgs : List Message) (tr : Trace),
      countToolUse cur.content ≤ 1 →
      (toolLoop g llm tm base fuel cur msgs tr).2.toolExecs.length ≤
        tr.toolExecs.length + fuel := by
  intro fuel
  induction fuel with
  | zero => intro cur msgs tr hc; simp [toolLoop]
  | succ fuel ih =>
    intro cur msgs tr hc
    by_cases hs : cur.stop_reason = "tool_use"
    · rw [toolLoop_succ_tool g llm tm base fuel cur msgs tr hs]
      have hrec := ih (llm tr.llmCalls.length) (roundMsgs tm cur msgs)
        ⟨tr.llmCalls ++ [roundParams g tm base fuel cur msgs],
         tr.toolExecs ++ cur.content.filterMap execEntry⟩ (h _)
      simp only [List.length_append, length_filterMap_execEntry] at hrec
      omega
    · rw [toolLoop_succ_stop g llm tm base fuel cur msgs tr hs]; simp

theorem toolLoop_always (g : AIGenerator) (llm : Client) (tm : ToolManager)
    (base : ApiParams)
    (h1 : ∀ n, (llm n).stop_reason = "tool_use")
    (h2 : ∀ n, countToolUse (llm n).content = 1) :
    ∀ (fuel : Nat) (cur : LLMResponse) (msgs : List Message) (tr : Trace),
      cur.stop_reason = "tool_use" → countToolUse cur.content = 1 →
      ∃ cur2 msgs2 tr2,
        toolLoop g llm tm base fuel cur msgs tr = (Sum.inr (cur2, msgs2), tr2) ∧
        tr2.llmCalls.length = tr.llmCalls.length + fuel ∧
        tr2.toolExecs.length = tr.toolExecs.length + fuel ∧
        cur2.stop_reason = "tool_use" := by
  intro fuel
  induction fuel with
  | zero =>
    intro cur msgs tr hs hc
    exact ⟨cur, msgs, tr, by simp [toolLoop], by simp, by simp, hs⟩
  | succ fuel ih =>
    intro cur msgs tr hs hc
    rw [toolLoop_succ_tool g llm tm base fuel cur msgs tr hs]
    obtain ⟨cur2, msgs2, tr2, heq, hl, he, hs2⟩ := ih (llm tr.llmCalls.length)
      (roundMsgs tm cur msgs)
      ⟨tr.llmCalls ++ [roundParams g tm base fuel cur msgs],
       tr.toolExecs ++ cur.content.filterMap execEntry⟩ (h1 _) (h2 _)
    refine ⟨cur2, msgs2, tr2, heq, ?_, ?_, hs2⟩
    · simp only [List.length_append, List.length_cons, List.length_nil] at hl; omega
    · simp only [List.length_append, length_filterMap_execEntry, hc] at he; omega

/-! The exhaustion fallback -/

theorem exhaustFallback_tool (g : AIGenerator) (llm : Client) (base : ApiParams)
    (cur : LLMResponse) (msgs : List Message) (tr : Trace)
    (h : cur.stop_reason = "tool_use") :
    exhaustFallback g llm base cur msgs tr =
      (firstText (llm tr.llmCalls.length),
       ⟨tr.llmCalls ++ [mkParams g (fbMsgs cur msgs) base.system none],
        tr.toolExecs⟩) := by
  simp [exhaustFallback, fbMsgs, llmCall, h]

theorem exhaustFallback_stop (g : AIGenerator) (llm : Client) (base : ApiParams)
    (cur : LLMResponse) (msgs : List Message) (tr : Trace)
    (h : cur.stop_reason ≠ "tool_use") :
    exhaustFallback g llm base cur msgs tr = (firstText cur, tr) := by
  simp [exhaustFallback, h]

theorem noticeResults_content (bs : List ContentBlock) :
    ∀ r ∈ noticeResults bs, r.content = maxRoundsNotice := by
  induction bs with
  | nil => simp [noticeResults]
  | cons b bs ih => cases b <;> simp [noticeResults, maxRoundsNotice] <;> exact ih

theorem noticeResults_length (bs : List ContentBlock) :
    (noticeResults bs).length = countToolUse bs := by
  induction bs with
  | nil => simp [noticeResults, countToolUse]
  | cons b bs ih =>
    cases b <;> simp [noticeResults, countToolUse, ContentBlock.type, List.filter] at ih ⊢ <;> omega

/-! Unfolding and shape of `generate_response` -/

theorem generate_response_tool (g : AIGenerator) (llm : Client) (q : String)
    (ch : Option String) (tools : Option (List ToolDef)) (tm : ToolManager)
    (h : (llm 0).stop_reason = "tool_use") :
    generate_response g llm q ch tools (some tm) =
      handle_tool_execution g llm (llm 0) (initialParams g q ch tools) tm
        ⟨[initialParams g q ch tools], []⟩ := by
  simp [generate_response, llmCall, initialParams, h]

theorem generate_response_direct (g : AIGenerator) (llm : Client) (q : String)
    (ch : Option String) (tools : Option (List ToolDef)) (tm : ToolManager)
    (h : (llm 0).stop_reason ≠ "tool_use") :
    generate_response g llm q ch tools (some tm) =
      (firstText (llm 0), ⟨[initialParams g q ch tools], []⟩) := by
  simp [generate_response, llmCall, initialParams, h]

theorem generate_response_nomgr (g : AIGenerator) (llm : Client) (q : String)
    (ch : Option String) (tools : Option (List ToolDef)) :
    generate_response g llm q ch tools none =
      (firstText (llm 0), ⟨[initialParams g q ch tools], []⟩) := by
  simp [generate_response, llmCall, initialParams]

theorem handle_trace_shape (g : AIGenerator) (llm : Client) (ini : LLMResponse)
    (base : ApiParams) (tm : ToolManager) (tr : Trace) :
    ∃ l e, (handle_tool_execution g llm ini base tm tr).2 =
      ⟨tr.llmCalls ++ l, tr.toolExecs ++ e⟩ ∧
      l.length ≤ g.max_tool_rounds + 1 := by
  unfold handle_tool_execution
  rcases htl : toolLoop g llm tm base g.max_tool_rounds ini base.messages tr with ⟨res, tr1⟩
  obtain ⟨l, e, hsh, hlen⟩ := toolLoop_trace_shape g llm tm base g.max_tool_rounds ini base.messages tr
  rw [htl] at hsh
  simp only at hsh
  subst hsh
  cases res with
  | inl a => exact ⟨l, e, by simp, by omega⟩
  | inr p =>
    rcases p with ⟨cur, msgs⟩
    dsimp only
    by_cases hs : cur.stop_reason = "tool_use"
    · rw [exhaustFallback_tool _ _ _ _ _ _ hs]
      refine ⟨l ++ [mkParams g (fbMsgs cur msgs) base.system none], e, by simp, ?_⟩
      simp; omega
    · rw [exhaustFallback_stop _ _ _ _ _ _ hs]
      exact ⟨l, e, by simp, by omega⟩

theorem generate_response_head (g : AIGenerator) (llm : Client) (q : String)
    (ch : Option String) (tools : Option (List ToolDef)) (tmm : Option ToolManager) :
    (generate_response g llm q ch tools tmm).2.llmCalls.head? =
      some (initialParams g q ch tools) := by
  cases tmm with
  | none => rw [generate_response_nomgr]; rfl
  | some tm =>
    by_cases h0 : (llm 0).stop_reason = "tool_use"
    · rw [generate_response_tool g llm q ch tools tm h0]
      obtain ⟨l, e, hsh, -⟩ := handle_trace_shape g llm (llm 0)
        (initialParams g q ch tools) tm ⟨[initialParams g q ch tools], []⟩
      rw [hsh]
      simp
    · rw [generate_response_direct g llm q ch tools tm h0]; rfl

/-! Claim C1 -/

/-- C1 (amended): with a tool manager, the LLM is called at most
`max_tool_rounds + 2` times per query; when every LLM response carries
at most one tool-use block, tools are executed at most
`max_tool_rounds` times; and with `max_tool_rounds = 2` and an LLM
whose every response has stop reason `tool_use` and exactly one
tool-use block, exactly 4 LLM calls and exactly 2 tool executions
occur, and the last LLM call's parameters contain no tool
definitions. -/
theorem c1_round_budget (g : AIGenerator) (llm : Client) (q : String)
    (ch : Option String) (tools : Option (List ToolDef)) (tm : ToolManager) :
    (generate_response g llm q ch tools (some tm)).2.llmCalls.length ≤
        g.max_tool_rounds + 2
    ∧ ((∀ n, countToolUse (llm n).content ≤ 1) →
        (generate_response g llm q ch tools (some tm)).2.toolExecs.length ≤
          g.max_tool_rounds)
    ∧ (g.max_tool_rounds = 2 →
       (∀ n, (llm n).stop_reason = "tool_use") →
       (∀ n, countToolUse (llm n).content = 1) →
       (generate_response g llm q ch tools (some tm)).2.llmCalls.length = 4
       ∧ (generate_response g llm q ch tools (some tm)).2.toolExecs.length = 2
       ∧ ((generate_response g llm q ch tools (some tm)).2.llmCalls.map
            ApiParams.tools).getLast? = some none) := by
  refine ⟨?_, ?_, ?_⟩
  · by_cases h0 : (llm 0).stop_reason = "tool_use"
    · rw [generate_response_tool g llm q ch tools tm h0]
      obtain ⟨l, e, hsh, hlen⟩ := handle_trace_shape g llm (llm 0)
        (initialParams g q ch tools) tm ⟨[initialParams g q ch tools], []⟩
      rw [hsh]; simp; omega
    · rw [generate_response_direct g llm q ch tools tm h0]; simp
  · intro hcount
    by_cases h0 : (llm 0).stop_reason = "tool_use"
    · rw [generate_response_tool g llm q ch tools tm h0]
      unfold handle_tool_execution
      rcases htl : toolLoop g llm tm (initialParams g q ch tools) g.max_tool_rounds
        (llm 0) (initialParams g q ch tools).messages ⟨[initialParams g q ch tools], []⟩
        with ⟨res, tr1⟩
      have hexec := toolLoop_execs_le g llm tm (initialParams g q ch tools) hcount
        g.max_tool_rounds (llm 0) (initialParams g q ch tools).messages
        ⟨[initialParams g q ch tools], []⟩ (hcount 0)
      rw [htl] at hexec
      simp only [List.length_nil] at hexec
      cases res with
      | inl a => simpa using hexec
      | inr p =>
        rcases p with ⟨cur, msgs⟩
        dsimp only
        by_cases hs : cur.stop_reason = "tool_use"
        · rw [exhaustFallback_tool _ _ _ _ _ _ hs]; simpa using hexec
        · rw [exhaustFallback_stop _ _ _ _ _ _ hs]; simpa using hexec
    · rw [generate_response_direct g llm q ch tools tm h0]; simp
  · intro hR h1 h2
    rw [generate_response_tool g llm q ch tools tm (h1 0)]
    unfold handle_tool_execution
    obtain ⟨cur2, msgs2, tr2, heq, hl, he, hs2⟩ := toolLoop_always g llm tm
      (initialParams g q ch tools) h1 h2 g.max_tool_rounds (llm 0)
      (initialParams g q ch tools).messages ⟨[initialParams g q ch tools], []⟩
      (h1 0) (h2 0)
    rw [heq]
    dsimp only
    rw [exhaustFallback_tool _ _ _ _ _ _ hs2]
    simp only [List.length_cons, List.length_nil] at hl he
    refine ⟨?_, ?_, ?_⟩
    · simp only [List.length_append, List.length_cons, List.length_nil]; omega
    · simpa using he.trans (by omega)
    · simp [List.map_append, List.getLast?_concat, mkParams]

/-- C1 counterexample: the claim's bound "tools are executed at most
`max_tool_rounds` times" fails when a response carries more than one
tool-use block: with `max_tool_rounds = 2`, a tool manager, and an LLM
whose every response has stop reason `tool_use` and two tool-use
blocks, 4 tool executions occur, not at most 2. -/
theorem c1_round_budget_counterexample :
    (generate_response wGen twoLLM "q" none (some ["search_course_content"])
        (some wTM)).2.toolExecs.length = 4
    ∧ (twoLLM 0).stop_reason = "tool_use" ∧ wGen.max_tool_rounds = 2 := by
  refine ⟨by decide, rfl, rfl⟩

/-- C1 witness: the amended claim instantiated at `max_tool_rounds = 2`
and an always-tool-use single-block LLM. -/
theorem c1_round_budget_witness :
    (generate_response wGen wLLM "q" none (some ["search_course_content"])
        (some wTM)).2.llmCalls.length = 4
    ∧ (generate_response wGen wLLM "q" none (some ["search_course_content"])
        (some wTM)).2.toolExecs.length = 2
    ∧ ((generate_response wGen wLLM "q" none (some ["search_course_content"])
        (some wTM)).2.llmCalls.map ApiParams.tools).getLast? = some none :=
  (c1_round_budget wGen wLLM "q" none (some ["search_course_content"]) wTM).2.2
    rfl (fun _ => rfl) (fun _ => rfl)

/-! Claim C2 -/

/-- C2: in every round of the orchestration loop, a response whose stop
reason is not `tool_use` terminates the loop immediately with that
response's first content block's text and an unchanged trace (no
further LLM call, no further tool execution), regardless of remaining
rounds; in particular, if the LLM stops signalling tool use after
round 1, the query finishes with exactly 2 LLM calls and only round
1's tool executions. -/
theorem c2_early_termination :
    (∀ (g : AIGenerator) (llm : Client) (tm : ToolManager) (base : ApiParams)
       (fuel : Nat) (cur : LLMResponse) (msgs : List Message) (tr : Trace),
       cur.stop_reason ≠ "tool_use" →
       toolLoop g llm tm base (fuel + 1) cur msgs tr = (Sum.inl (firstText cur), tr))
    ∧ (∀ (g : AIGenerator) (llm : Client) (q : String) (ch : Option String)
         (tools : Option (List ToolDef)) (tm : ToolManager),
       (llm 0).stop_reason = "tool_use" →
       (llm 1).stop_reason ≠ "tool_use" →
       1 ≤ g.max_tool_rounds →
       (generate_response g llm q ch tools (some tm)).1 = firstText (llm 1)
       ∧ (generate_response g llm q ch tools (some tm)).2.llmCalls.length = 2
       ∧ (generate_response g llm q ch tools (some tm)).2.toolExecs.length =
           countToolUse (llm 0).content) := by
  constructor
  · intro g llm tm base fuel cur msgs tr h
    exact toolLoop_succ_stop g llm tm base fuel cur msgs tr h
  · intro g llm q ch tools tm h0 h1 hR
    rw [generate_response_tool g llm q ch tools tm h0]
    unfold handle_tool_execution
    obtain ⟨k, hk⟩ : ∃ k, g.max_tool_rounds = k + 1 :=
      ⟨g.max_tool_rounds - 1, by omega⟩
    rw [hk, toolLoop_succ_tool g llm tm (initialParams g q ch tools) k (llm 0)
      (initialParams g q ch tools).messages ⟨[initialParams g q ch tools], []⟩ h0]
    have hidx : (Trace.mk [initialParams g q ch tools] []).llmCalls.length = 1 := by simp
    rw [hidx]
    cases k with
    | zero =>
      simp only [toolLoop]
      rw [exhaustFallback_stop _ _ _ _ _ _ h1]
      refine ⟨rfl, by simp, by simp [length_filterMap_execEntry]⟩
    | succ k =>
      rw [toolLoop_succ_stop g llm tm (initialParams g q ch tools) k (llm 1) _ _ h1]
      dsimp only
      refine ⟨rfl, by simp, by simp [length_filterMap_execEntry]⟩

/-- C2 witness: the early-termination behaviour instantiated at an LLM
that signals tool use once and then answers. -/
theorem c2_early_termination_witness :
    (generate_response wGen eLLM "What is MCP?" none
        (some ["search_course_content"]) (some wTM)).1 = firstText (eLLM 1)
    ∧ (generate_response wGen eLLM "What is MCP?" none
        (some ["search_course_content"]) (some wTM)).2.llmCalls.length = 2
    ∧ (generate_response wGen eLLM "What is MCP?" none
        (some ["search_course_content"]) (some wTM)).2.toolExecs.length =
        countToolUse (eLLM 0).content :=
  c2_early_termination.2 wGen eLLM "What is MCP?" none
    (some ["search_course_content"]) wTM rfl (by decide) (by decide)

/-! Claim C3 -/

/-- C3: when after the round loop the response still signals tool use,
the engine appends the trailing tool-use assistant message, substitutes
each pending tool-use block's result with the fixed maximum-rounds
notice (one notice per tool-use block — no tool is executed, the trace
of tool executions is unchanged), makes exactly one final LLM call
whose parameters contain no tool definitions, and returns that call's
first block's text unconditionally — the result is `firstText` of the
oracle's next response whatever its stop reason, so no recursion
follows. -/
theorem c3_exhaustion_forced_call (g : AIGenerator) (llm : Client)
    (base : ApiParams) (cur : LLMResponse) (msgs : List Message) (tr : Trace)
    (h : cur.stop_reason = "tool_use") :
    exhaustFallback g llm base cur msgs tr =
      (firstText (llm tr.llmCalls.length),
       ⟨tr.llmCalls ++ [mkParams g (fbMsgs cur msgs) base.system none],
        tr.toolExecs⟩)
    ∧ (mkParams g (fbMsgs cur msgs) base.system none).tools = none
    ∧ fbMsgs cur msgs =
        (msgs ++ [⟨"assistant", MessageContent.blocks cur.content⟩]) ++
        (if (noticeResults cur.content).isEmpty then []
         else [⟨"user", MessageContent.results (noticeResults cur.content)⟩])
    ∧ (∀ r ∈ noticeResults cur.content, r.content = maxRoundsNotice)
    ∧ (noticeResults cur.content).length = countToolUse cur.content := by
  refine ⟨exhaustFallback_tool g llm base cur msgs tr h, rfl, ?_, noticeResults_content _, noticeResults_length _⟩
  unfold fbMsgs
  by_cases he : (noticeResults cur.content).isEmpty <;> simp [he]

/-- C3 witness: the forced final call instantiated at a concrete
pending tool-use response. -/
theorem c3_exhaustion_forced_call_witness :
    (exhaustFallback wGen wLLM (initialParams wGen "q" none none) (wLLM 0) []
        ⟨[], []⟩).1 = firstText (wLLM 0)
    ∧ (exhaustFallback wGen wLLM (initialParams wGen "q" none none) (wLLM 0) []
        ⟨[], []⟩).2.toolExecs = [] := by
  have h := c3_exhaustion_forced_call wGen wLLM (initialParams wGen "q" none none)
    (wLLM 0) [] ⟨[], []⟩ rfl
  rw [h.1]
  exact ⟨rfl, rfl⟩

/-! Claim C4 -/

/-- C4 counterexample: the claim says the conversation history is
prepended before the fixed system instructions (history text precedes
the system prompt); in the code the system content starts with the
system prompt and the history follows it, so with history "ZZZ" the
system content sent to the LLM does not start with "ZZZ". -/
theorem c4_system_content_counterexample :
    ((generate_response wGen dLLM "q" (some "ZZZ") none none).2.llmCalls.map
        ApiParams.system) =
      [SYSTEM_PROMPT ++ "\n\nPrevious conversation:\n" ++ "ZZZ"]
    ∧ (("ZZZ".data).isPrefixOf
        ((SYSTEM_PROMPT ++ "\n\nPrevious conversation:\n" ++ "ZZZ").data)) = false := by
  constructor
  · rw [generate_response_nomgr]
    simp [initialParams, mkParams, buildSystemContent]
  · decide

/-- C4 (amended): for every call with a non-empty conversation-history
string, the system content of the initial LLM call is the fixed system
prompt followed by the separator and the history (history text follows
the system prompt); when the history is absent the system content is
exactly the fixed system prompt. -/
theorem c4_system_content (g : AIGenerator) (llm : Client) (q : String)
    (tools : Option (List ToolDef)) (tmm : Option ToolManager) :
    (∀ s : String, s ≠ "" →
      ((generate_response g llm q (some s) tools tmm).2.llmCalls.head?).map
          ApiParams.system =
        some (SYSTEM_PROMPT ++ "\n\nPrevious conversation:\n" ++ s))
    ∧ ((generate_response g llm q none tools tmm).2.llmCalls.head?).map
          ApiParams.system = some SYSTEM_PROMPT := by
  constructor
  · intro s hs
    rw [generate_response_head g llm q (some s) tools tmm]
    simp [initialParams, mkParams, buildSystemContent, hs]
  · rw [generate_response_head g llm q none tools tmm]
    simp [initialParams, mkParams, buildSystemContent]

/-- C4 witness: the amended claim instantiated at history "ZZZ" and at
an absent history. -/
theorem c4_system_content_witness :
    ((generate_response wGen dLLM "q" (some "ZZZ") none none).2.llmCalls.head?).map
        ApiParams.system =
      some (SYSTEM_PROMPT ++ "\n\nPrevious conversation:\n" ++ "ZZZ")
    ∧ ((generate_response wGen dLLM "q" none none none).2.llmCalls.head?).map
        ApiParams.system = some SYSTEM_PROMPT :=
  ⟨(c4_system_content wGen dLLM "q" none none).1 "ZZZ" (by decide),
   (c4_system_content wGen dLLM "q" none none).2⟩

/-! Claim C5 -/

/-- C5: tool-execution exceptions do not propagate out of a round: the
round's execution loop returns, for every block list, exactly one tool
result per tool-use block in order — where a raising call contributes
the string "Tool execution error: <message>" — and dispatches every
tool-use block to the manager (the trace records one execution per
tool-use block, so later calls still run after an earlier one raised);
and a round that signals tool use always proceeds to the next LLM
call. -/
theorem c5_tool_error_boundary :
    (∀ (tm : ToolManager) (bs : List ContentBlock) (tr : Trace),
       execToolBlocks tm bs tr =
         (bs.filterMap (expectedToolResult tm),
          { tr with toolExecs := tr.toolExecs ++ bs.filterMap execEntry }))
    ∧ (∀ (tm : ToolManager) (i n : String) (inp : List (String × String)) (e : String),
       tm n inp = Except.error e →
       expectedToolResult tm (ContentBlock.tool_use i n inp) =
         some ⟨i, "Tool execution error: " ++ e⟩)
    ∧ (∀ (g : AIGenerator) (llm : Client) (tm : ToolManager) (base : ApiParams)
         (fuel : Nat) (cur : LLMResponse) (msgs : List Message) (tr : Trace),
       cur.stop_reason = "tool_use" →
       tr.llmCalls.length + 1 ≤
         (toolLoop g llm tm base (fuel + 1) cur msgs tr).2.llmCalls.length) := by
  refine ⟨execToolBlocks_spec, ?_, ?_⟩
  · intro tm i n inp e he
    simp [expectedToolResult, he]
  · intro g llm tm base fuel cur msgs tr hs
    rw [toolLoop_succ_tool g llm tm base fuel cur msgs tr hs]
    have := toolLoop_llm_mono g llm tm base fuel (llm tr.llmCalls.length)
      (roundMsgs tm cur msgs)
      ⟨tr.llmCalls ++ [roundParams g tm base fuel cur msgs],
       tr.toolExecs ++ cur.content.filterMap execEntry⟩
    simpa using this

/-- C5 witness: the failure boundary instantiated at an always-raising
tool manager. -/
theorem c5_tool_error_boundary_witness :
    expectedToolResult errTM
        (ContentBlock.tool_use "tool_1" "search_course_content" [("query", "test")]) =
      some ⟨"tool_1", "Tool execution error: " ++ "ChromaDB connection failed"⟩
    ∧ (Trace.mk [] []).llmCalls.length + 1 ≤
        (toolLoop wGen wLLM errTM (initialParams wGen "q" none none) (0 + 1)
          (wLLM 0) [] ⟨[], []⟩).2.llmCalls.length :=
  ⟨c5_tool_error_boundary.2.1 errTM "tool_1" "search_course_content"
     [("query", "test")] "ChromaDB connection failed" rfl,
   c5_tool_error_boundary.2.2 wGen wLLM errTM (initialParams wGen "q" none none)
     0 (wLLM 0) [] ⟨[], []⟩ rfl⟩

/-! Claim C9 -/

/-- C9: when the initial response signals tool use but no tool manager
was passed, no tool is executed and no further LLM call is made; the
function returns the `.text` attribute of the first content block —
which is well-defined (`some _`) only when that block is a text block:
if the first block is a tool-use block the access yields `none`
(modelling the `AttributeError`). -/
theorem c9_no_manager (g : AIGenerator) (llm : Client) (q : String)
    (ch : Option String) (tools : Option (List ToolDef))
    (h : (llm 0).stop_reason = "tool_use") :
    (generate_response g llm q ch tools none).1 = firstText (llm 0)
    ∧ (generate_response g llm q ch tools none).2.llmCalls.length = 1
    ∧ (generate_response g llm q ch tools none).2.toolExecs = []
    ∧ (∀ i n inp, (llm 0).content.head? = some (ContentBlock.tool_use i n inp) →
        (generate_response g llm q ch tools none).1 = none) := by
  rw [generate_response_nomgr]
  refine ⟨rfl, by simp, rfl, ?_⟩
  intro i n inp hh
  simp [firstText, hh, ContentBlock.textAttr]

/-- C9 witness: the no-manager behaviour instantiated at a tool-use
response whose first block is a tool-use block. -/
theorem c9_no_manager_witness :
    (generate_response wGen wLLM "q" none (some ["search_course_content"]) none).1 = none
    ∧ (generate_response wGen wLLM "q" none
        (some ["search_course_content"]) none).2.llmCalls.length = 1 := by
  have h := c9_no_manager wGen wLLM "q" none (some ["search_course_content"]) rfl
  exact ⟨h.2.2.2 "tool_123" "search_course_content" [("query", "test")] rfl, h.2.1⟩

/-! Claim C10: the frame property of the message history -/

theorem readRef_appendRef_ne (σ : MsgStore) (i j : Nat) (m : Message)
    (h : i ≠ j) : readRef (appendRef σ i m) j = readRef σ j := by
  simp [readRef, appendRef, List.getElem?_set_ne h]

theorem readRef_append_lt (σ : MsgStore) (x : List Message) (r : Nat)
    (h : r < σ.length) : readRef (σ ++ [x]) r = readRef σ r := by
  simp [readRef, List.getElem?_append_left h]

theorem toolLoopSt_frame (g : AIGenerator) (llm : Client) (tm : ToolManager)
    (base : ApiParams) (msgsRef : Nat) :
    ∀ (fuel : Nat) (cur : LLMResponse) (σ : MsgStore) (tr : Trace) (r : Nat),
      r ≠ msgsRef →
      readRef (toolLoopSt g llm tm base msgsRef fuel cur σ tr).2.1 r = readRef σ r := by
  intro fuel
  induction fuel with
  | zero => intro cur σ tr r h; simp [toolLoopSt]
  | succ fuel ih =>
    intro cur σ tr r h
    by_cases hs : cur.stop_reason = "tool_use"
    · simp only [toolLoopSt, hs, ne_eq, not_true_eq_false, if_false]
      rw [ih _ _ _ _ h]
      by_cases he : (execToolBlocks tm cur.content tr).1.isEmpty
      · rw [if_pos he, readRef_appendRef_ne _ _ _ _ (Ne.symm h)]
      · rw [if_neg he, readRef_appendRef_ne _ _ _ _ (Ne.symm h),
          readRef_appendRef_ne _ _ _ _ (Ne.symm h)]
    · simp [toolLoopSt, hs]

theorem exhaustFallbackSt_frame (g : AIGenerator) (llm : Client)
    (base : ApiParams) (msgsRef : Nat) (cur : LLMResponse) (σ : MsgStore)
    (tr : Trace) (r : Nat) (h : r ≠ msgsRef) :
    readRef (exhaustFallbackSt g llm base msgsRef cur σ tr).2.1 r = readRef σ r := by
  by_cases hs : cur.stop_reason = "tool_use"
  · simp only [exhaustFallbackSt, hs, if_true]
    by_cases he : (noticeResults cur.content).isEmpty
    · rw [if_pos he]
      exact readRef_appendRef_ne _ _ _ _ (Ne.symm h)
    · rw [if_neg he, readRef_appendRef_ne _ _ _ _ (Ne.symm h),
        readRef_appendRef_ne _ _ _ _ (Ne.symm h)]
  · simp [exhaustFallbackSt, hs]

theorem handle_st_frame (g : AIGenerator) (llm : Client) (ini : LLMResponse)
    (base : ApiParams) (tm : ToolManager) (baseRef : Nat) (σ : MsgStore)
    (tr : Trace) (h : baseRef < σ.length) :
    readRef (handle_tool_execution_st g llm ini base baseRef tm σ tr).2.1 baseRef =
      readRef σ baseRef := by
  have hne : baseRef ≠ σ.length := Nat.ne_of_lt h
  unfold handle_tool_execution_st
  simp only [copyRef]
  rcases htl : toolLoopSt g llm tm base σ.length g.max_tool_rounds ini
    (σ ++ [readRef σ baseRef]) tr with ⟨res, σ1, tr1⟩
  have h1 : readRef σ1 baseRef = readRef σ baseRef := by
    have hf := toolLoopSt_frame g llm tm base σ.length g.max_tool_rounds ini
      (σ ++ [readRef σ baseRef]) tr baseRef hne
    rw [htl] at hf
    simpa [readRef_append_lt σ _ baseRef h] using hf
  cases res with
  | inl a => simpa using h1
  | inr cur =>
    dsimp only
    rw [exhaustFallbackSt_frame g llm base σ.length cur σ1 tr1 baseRef hne]
    exact h1

/-- C10: the multi-round loop mutates only a copy of the message
history: after `generate_response` finishes, the list object behind
`base_params["messages"]` (the cell allocated for the initial call)
still contains exactly the single initial user message; every
assistant tool-use turn and tool-result user turn was appended to the
`.copy()` cell only. -/
theorem c10_message_copy (g : AIGenerator) (llm : Client) (q : String)
    (ch : Option String) (tools : Option (List ToolDef))
    (tmm : Option ToolManager) :
    readRef (generate_response_st g llm q ch tools tmm).2.1
        (generate_response_st g llm q ch tools tmm).2.2.1 =
      [⟨"user", MessageContent.str q⟩] := by
  cases tmm with
  | none => rfl
  | some tm =>
    by_cases h0 : (llm 0).stop_reason = "tool_use"
    · simp only [generate_response_st, llmCall, List.length_nil, h0, if_true]
      exact handle_st_frame g llm (llm 0) _ tm 0
        [[⟨"user", MessageContent.str q⟩]] _ (by simp)
    · simp [generate_response_st, llmCall, h0, readRef]

/-! Claim C6 -/

/-- C6: when the course name (if any) resolves, the structured filter
handed to the content query follows the documented rules exactly: no
filter without course or lesson; the course-title equality with course
only; the lesson-number equality with lesson only; and the logical AND
of the two equalities with both. -/
theorem c6_filter_construction (resolve : Resolver) (cq : ContentQuery)
    (query : String) :
    (search resolve cq query none none).2 = [(query, none)]
    ∧ (∀ c t, resolve c = some t →
        (search resolve cq query (some c) none).2 =
          [(query, some (ChromaWhere.eqCourseTitle t))])
    ∧ (∀ n : Int, (search resolve cq query none (some n)).2 =
        [(query, some (ChromaWhere.eqLessonNumber n))])
    ∧ (∀ (c t : String) (n : Int), resolve c = some t →
        (search resolve cq query (some c) (some n)).2 =
          [(query, some (ChromaWhere.andFilter (ChromaWhere.eqCourseTitle t)
              (ChromaWhere.eqLessonNumber n)))]) := by
  refine ⟨?_, ?_, ?_, ?_⟩
  · simp only [search, runContentQuery, buildWhere]
    rcases hx : cq query none with v | v <;> simp [hx]
  · intro c t hr
    simp only [search, runContentQuery, buildWhere, hr]
    rcases hx : cq query (some (ChromaWhere.eqCourseTitle t)) with v | v <;> simp [hx]
  · intro n
    simp only [search, runContentQuery, buildWhere]
    rcases hx : cq query (some (ChromaWhere.eqLessonNumber n)) with v | v <;> simp [hx]
  · intro c t n hr
    simp only [search, runContentQuery, buildWhere, hr]
    rcases hx : cq query (some (ChromaWhere.andFilter (ChromaWhere.eqCourseTitle t)
      (ChromaWhere.eqLessonNumber n))) with v | v <;> simp [hx]

/-- C6 witness: the filter rules instantiated at a concrete resolver
and query. -/
theorem c6_filter_construction_witness :
    (search wResolver okQuery "test query" none none).2 = [("test query", none)]
    ∧ (search wResolver okQuery "test query" (some "MCP") none).2 =
        [("test query", some (ChromaWhere.eqCourseTitle "Introduction to MCP"))]
    ∧ (search wResolver okQuery "test query" none (some 2)).2 =
        [("test query", some (ChromaWhere.eqLessonNumber 2))]
    ∧ (search wResolver okQuery "test query" (some "MCP") (some 1)).2 =
        [("test query", some (ChromaWhere.andFilter
            (ChromaWhere.eqCourseTitle "Introduction to MCP")
            (ChromaWhere.eqLessonNumber 1)))] := by
  have h := c6_filter_construction wResolver okQuery "test query"
  exact ⟨h.1, h.2.1 "MCP" "Introduction to MCP" rfl, h.2.2.1 2,
    h.2.2.2 "MCP" "Introduction to MCP" 1 rfl⟩

/-! Claim C7 -/

/-- C7: when the course name fails to resolve, `search` returns
`SearchResults.empty("No course found matching '<course_name>'")` and
issues no similarity query against the content collection. -/
theorem c7_unresolved_course (resolve : Resolver) (cq : ContentQuery)
    (query c : String) (ln : Option Int) (h : resolve c = none) :
    search resolve cq query (some c) ln =
      (SearchResults.empty ("No course found matching " ++ sq ++ c ++ sq), []) := by
  simp [search, h]

/-- C7 witness: the resolution-failure path instantiated at an unknown
course name. -/
theorem c7_unresolved_course_witness :
    search wResolver okQuery "test query" (some "NonexistentCourse") none =
      (SearchResults.empty
        ("No course found matching " ++ sq ++ "NonexistentCourse" ++ sq), []) :=
  c7_unresolved_course wResolver okQuery "test query" "NonexistentCourse" none
    (by decide)

/-! Claim C8 -/

/-- C8: `search` never raises (it is a total function into
`SearchResults`); whenever the content query it issued raises an
exception with message m, the result is
`SearchResults.empty("Search error: <m>")`. -/
theorem c8_query_exception (resolve : Resolver) (cq : ContentQuery)
    (query : String) (cn : Option String) (ln : Option Int)
    (s : String) (w : Option ChromaWhere) (m : String)
    (hq : (search resolve cq query cn ln).2 = [(s, w)])
    (he : cq s w = Except.error m) :
    (search resolve cq query cn ln).1 =
      SearchResults.empty ("Search error: " ++ m) := by
  cases cn with
  | none =>
    simp only [search, runContentQuery] at hq ⊢
    rcases hx : cq query (buildWhere none ln) with v | v
    · rw [hx] at hq
      simp at hq
      rw [hq.1, hq.2] at hx
      rw [hx] at he
      injection he with hvm
      subst hvm
      rfl
    · rw [hx] at hq
      simp at hq
      rw [hq.1, hq.2] at hx
      rw [hx] at he
      simp at he
  | some c =>
    rcases hr : resolve c with _ | t
    · simp [search, hr] at hq
    · simp only [search, runContentQuery, hr] at hq ⊢
      rcases hx : cq query (buildWhere (some t) ln) with v | v
      · rw [hx] at hq
        simp at hq
        rw [hq.1, hq.2] at hx
        rw [hx] at he
        injection he with hvm
        subst hvm
        rfl
      · rw [hx] at hq
        simp at hq
        rw [hq.1, hq.2] at hx
        rw [hx] at he
        simp at he

/-- C8 witness: the exception-capture path instantiated at an
always-raising content query. -/
theorem c8_query_exception_witness :
    (search wResolver errQuery "test query" none none).1 =
      SearchResults.empty ("Search error: " ++ "ChromaDB connection failed") :=
  c8_query_exception wResolver errQuery "test query" none none "test query" none
    "ChromaDB connection failed" rfl rfl

end Rag
